import Mathlib

/-!
Shallow embedding of the iStar order gateway (Go backend).

The development embeds the order-lifecycle core of the repository:
the upstream HTTP client (`internal/client/istar.go`), the order
orchestrator (`internal/services/orderService.go`), the webhook
handler (`WebhookHandler.HandleWebhookHandler` in
`internal/middleware/security.go`), the stubbed order repository
(`internal/repositories/order_repository.go`) and the API-key
comparison (`internal/middleware/auth.go`).

External libraries the code calls (the `time`, `uuid`, `encoding/json`
and `crypto/hmac` packages) are collaborators: they are modelled as
fields of an `Env` record of abstract functions, so every theorem is
quantified over their behaviour.  Machine integers are modelled as
`Int`/`Nat`; Go byte strings are `List Nat` where the byte level
matters (the constant-time comparison) and `String` elsewhere.
-/

namespace IStar

/-- Opaque instant produced by Go's `time` package; the repository never
inspects the value, it only threads it through. -/
structure GoTime where
  t : Nat
deriving DecidableEq, Repr

/-- Opaque parsed UUID produced by `uuid.Parse`. -/
structure GoUUID where
  val : Nat
deriving DecidableEq, Repr

/-- `internal/models/errors.go`: `APIError{Code, Message}`. -/
structure APIError where
  code : Nat
  message : String
deriving DecidableEq, Repr

/-- `models.ValidationError`: HTTP 400. -/
def ValidationError (m : String) : APIError := ⟨400, m⟩

/-- `models.UnauthorizedError`: HTTP 401. -/
def UnauthorizedError (m : String) : APIError := ⟨401, m⟩

/-- `models.NotFoundError`: HTTP 404. -/
def NotFoundError (m : String) : APIError := ⟨404, m⟩

/-- `models.InternalServerError`: HTTP 500. -/
def InternalServerError (m : String) : APIError := ⟨500, m⟩

/-- Go's `type OrderStatus string`. -/
abbrev OrderStatus := String

def StatusPending : OrderStatus := "pending"

def StatusCompleted : OrderStatus := "completed"

def StatusFailed : OrderStatus := "failed"

/-- Go's `type OrderType string`. -/
abbrev OrderType := String

def OrderTypeStar : OrderType := "star"

def OrderTypePremium : OrderType := "premium"

/-- `internal/models/response.go`: the `Order` record.  `amount` is Go's
`float64`; the repository only carries it through, so it stays `Float`. -/
structure Order where
  id : GoUUID
  type : OrderType
  status : OrderStatus
  username : String
  recipientHash : String
  quantity : Option Int
  months : Option Int
  amount : Float
  walletType : String
  txHash : Option String
  createdAt : GoTime
  updatedAt : GoTime
  completedAt : Option GoTime
  errorMessage : String
deriving Repr

/-- `models.CreateStarOrderRequest` (unnamed models file). -/
structure CreateStarOrderRequest where
  username : String
  recipientHash : String
  quantity : Int
  walletType : String
deriving DecidableEq, Repr

/-- `models.CreatePremiumOrderRequest` (unnamed models file). -/
structure CreatePremiumOrderRequest where
  username : String
  recipientHash : String
  months : Int
  walletType : String
deriving DecidableEq, Repr

/-- `models.StarOrderResponse`: the decoded provider response body. -/
structure StarOrderResponse where
  orderID : String
  status : String
  username : String
  quantity : Int
  amount : Float
  createdAt : String
  completedAt : Option String
  txHash : Option String
deriving Repr

/-- `models.PremiumOrderResponse`: the decoded provider response body. -/
structure PremiumOrderResponse where
  orderID : String
  status : String
  username : String
  months : Int
  amount : Float
  createdAt : String
  completedAt : Option String
  txHash : Option String
deriving Repr

/-- Values of Go's `interface{}` as they occur in a decoded JSON map. -/
inductive JsonVal where
  | str (s : String)
  | num (x : Float)
  | boolean (b : Bool)
  | null
  | arr (xs : List JsonVal)
  | obj (fields : List (String × JsonVal))
deriving Repr

/-- Go's type assertion `v.(string)`: succeeds exactly on string values. -/
def JsonVal.asString : JsonVal → Option String
  | .str s => some s
  | _ => none

/-- Go map indexing `m[k]` on a `map[string]interface{}` (decoded JSON
object): `none` models the nil interface returned for an absent key. -/
def jsonLookup (m : List (String × JsonVal)) (k : String) : Option JsonVal :=
  (m.find? (fun p => p.1 = k)).map (fun p => p.2)

/-- `payload.Order[k].(string)` as used by the webhook handler: lookup
followed by the string type assertion. -/
def lookupString (m : List (String × JsonVal)) (k : String) : Option String :=
  (jsonLookup m k).bind JsonVal.asString

/-- `internal/models/webhook.go`: `WebhookPayload`.  `order` is the
untyped `map[string]interface{}` sub-object. -/
structure WebhookPayload where
  eventType : String
  occurredAt : GoTime
  order : List (String × JsonVal)
  txHash : Option String
  completedAt : Option GoTime
  quantity : Option Int
deriving Repr

/-- The external collaborators of the core: `time.Parse` with the RFC3339
layout, `uuid.Parse`, the JSON decoders for the typed response bodies and
the webhook payload, the hex-encoded HMAC-SHA256 of `crypto/hmac` +
`encoding/hex` (secret, body ↦ digest), and `time.Now()`. -/
structure Env where
  parseTime : String → Option GoTime
  parseUUID : String → Option GoUUID
  decodeStar : String → Option StarOrderResponse
  decodePremium : String → Option PremiumOrderResponse
  decodeWebhook : String → Option WebhookPayload
  hmacSHA256Hex : String → String → String
  now : GoTime

/-- An upstream HTTP response as observed by the client after
`DoRequest` succeeds: a status code and a raw body. -/
structure HTTPResp where
  statusCode : Nat
  body : String
deriving DecidableEq, Repr

/-- `IStarClient.CreateStarOrderAsync` (`internal/client/istar.go`):
classification of the upstream result.  The argument `r` is the outcome
of `DoRequest` (`.error` = transport failure already wrapped upstream). -/
def clientCreateStarOrderAsync (env : Env) (r : Except APIError HTTPResp) :
    Except APIError StarOrderResponse :=
  match r with
  | .error e => .error e
  | .ok resp =>
    if resp.statusCode ≠ 202 then
      if resp.statusCode = 400 then .error (ValidationError "Invalid request parameters")
      else if resp.statusCode = 401 then .error (UnauthorizedError "Invalid API key")
      else if resp.statusCode = 404 then .error (NotFoundError "Resource not found")
      else .error (InternalServerError ("Unexpected status code: " ++ toString resp.statusCode))
    else
      match env.decodeStar resp.body with
      | none => .error (InternalServerError "Failed to decode response")
      | some response => .ok response

/-- `IStarClient.CreateStarOrderSync`: same classification with success
code 200. -/
def clientCreateStarOrderSync (env : Env) (r : Except APIError HTTPResp) :
    Except APIError StarOrderResponse :=
  match r with
  | .error e => .error e
  | .ok resp =>
    if resp.statusCode ≠ 200 then
      if resp.statusCode = 400 then .error (ValidationError "Invalid request parameters")
      else if resp.statusCode = 401 then .error (UnauthorizedError "Invalid API key")
      else if resp.statusCode = 404 then .error (NotFoundError "Resource not found")
      else .error (InternalServerError ("Unexpected status code: " ++ toString resp.statusCode))
    else
      match env.decodeStar resp.body with
      | none => .error (InternalServerError "Failed to decode response")
      | some response => .ok response

/-- `IStarClient.CreatePremiumOrderAsync`: success code 202, premium body. -/
def clientCreatePremiumOrderAsync (env : Env) (r : Except APIError HTTPResp) :
    Except APIError PremiumOrderResponse :=
  match r with
  | .error e => .error e
  | .ok resp =>
    if resp.statusCode ≠ 202 then
      if resp.statusCode = 400 then .error (ValidationError "Invalid request parameters")
      else if resp.statusCode = 401 then .error (UnauthorizedError "Invalid API key")
      else if resp.statusCode = 404 then .error (NotFoundError "Resource not found")
      else .error (InternalServerError ("Unexpected status code: " ++ toString resp.statusCode))
    else
      match env.decodePremium resp.body with
      | none => .error (InternalServerError "Failed to decode response")
      | some response => .ok response

/-- `IStarClient.CreatePremiumOrderSync`: success code 200, premium body. -/
def clientCreatePremiumOrderSync (env : Env) (r : Except APIError HTTPResp) :
    Except APIError PremiumOrderResponse :=
  match r with
  | .error e => .error e
  | .ok resp =>
    if resp.statusCode ≠ 200 then
      if resp.statusCode = 400 then .error (ValidationError "Invalid request parameters")
      else if resp.statusCode = 401 then .error (UnauthorizedError "Invalid API key")
      else if resp.statusCode = 404 then .error (NotFoundError "Resource not found")
      else .error (InternalServerError ("Unexpected status code: " ++ toString resp.statusCode))
    else
      match env.decodePremium resp.body with
      | none => .error (InternalServerError "Failed to decode response")
      | some response => .ok response

/-- The conceptual content of the Order Store.  The repository's
receiver holds no store (the database pool is commented out), so the
operations below thread this state unchanged. -/
abbrev StoreState := List Order

/-- `orderRepository.CreateOrder` (`order_repository.go`): every
statement of the body is commented out and the function returns `nil`;
it performs no effect on any store and reports no error. -/
def repoCreateOrder (σ : StoreState) (_order : Order) : StoreState × Option APIError :=
  (σ, none)

/-- The argument bundle of `orderRepository.UpdateOrderStatus`
(orderID, status, txHash, completedAt, errorMessage). -/
structure UpdateCall where
  orderID : String
  status : OrderStatus
  txHash : Option String
  completedAt : Option GoTime
  errorMessage : Option String
deriving DecidableEq, Repr

/-- `orderRepository.UpdateOrderStatus`: like `CreateOrder`, the body is
entirely commented out and the function returns `nil`. -/
def repoUpdateOrderStatus (σ : StoreState) (_c : UpdateCall) : StoreState × Option APIError :=
  (σ, none)

/-- Lines 105-109 and 207-211 of `orderService.go`: the synchronous
variants coerce any provider status other than completed/failed to
failed. -/
def coerceSyncStatus (s : String) : OrderStatus :=
  if s ≠ StatusCompleted ∧ s ≠ StatusFailed then StatusFailed else s

/-- The `completed_at` block of the synchronous variants: absent stays
absent, present must parse or the operation fails. -/
def parseCompletedAt (env : Env) (o : Option String) : Except APIError (Option GoTime) :=
  match o with
  | none => .ok none
  | some s =>
    match env.parseTime s with
    | none => .error (InternalServerError "Invalid completed_at timestamp")
    | some t => .ok (some t)

/-- The `&models.Order{...}` literal of `CreateStarOrderAsync`
(`orderService.go` lines 59-70). -/
def mkStarAsyncOrder (req : CreateStarOrderRequest) (resp : StarOrderResponse)
    (createdAt : GoTime) (orderID : GoUUID) : Order :=
  { id := orderID
    type := OrderTypeStar
    status := StatusPending
    username := req.username
    recipientHash := req.recipientHash
    quantity := some resp.quantity
    months := none
    amount := resp.amount
    walletType := req.walletType
    txHash := none
    createdAt := createdAt
    updatedAt := createdAt
    completedAt := none
    errorMessage := "" }

/-- The `&models.Order{...}` literal of `CreateStarOrderSync`
(lines 115-129); `now` is the `time.Now()` used for `UpdatedAt`. -/
def mkStarSyncOrder (req : CreateStarOrderRequest) (resp : StarOrderResponse)
    (createdAt : GoTime) (completedAt : Option GoTime) (now : GoTime)
    (orderID : GoUUID) : Order :=
  { id := orderID
    type := OrderTypeStar
    status := coerceSyncStatus resp.status
    username := req.username
    recipientHash := req.recipientHash
    quantity := some resp.quantity
    months := none
    amount := resp.amount
    walletType := req.walletType
    txHash := resp.txHash
    createdAt := createdAt
    updatedAt := now
    completedAt := completedAt
    errorMessage := "" }

/-- The `&models.Order{...}` literal of `CreatePremiumOrderAsync`
(lines 161-172). -/
def mkPremiumAsyncOrder (req : CreatePremiumOrderRequest) (resp : PremiumOrderResponse)
    (createdAt : GoTime) (orderID : GoUUID) : Order :=
  { id := orderID
    type := OrderTypePremium
    status := StatusPending
    username := req.username
    recipientHash := req.recipientHash
    quantity := none
    months := some resp.months
    amount := resp.amount
    walletType := req.walletType
    txHash := none
    createdAt := createdAt
    updatedAt := createdAt
    completedAt := none
    errorMessage := "" }

/-- The `&models.Order{...}` literal of `CreatePremiumOrderSync`
(lines 217-231). -/
def mkPremiumSyncOrder (req : CreatePremiumOrderRequest) (resp : PremiumOrderResponse)
    (createdAt : GoTime) (completedAt : Option GoTime) (now : GoTime)
    (orderID : GoUUID) : Order :=
  { id := orderID
    type := OrderTypePremium
    status := coerceSyncStatus resp.status
    username := req.username
    recipientHash := req.recipientHash
    quantity := none
    months := some resp.months
    amount := resp.amount
    walletType := req.walletType
    txHash := resp.txHash
    createdAt := createdAt
    updatedAt := now
    completedAt := completedAt
    errorMessage := "" }

/-- `orderService.CreateStarOrderAsync` (`orderService.go` lines 40-79):
client call, `created_at` parse, `order_id` parse, order construction
with `Status = pending`, persistence.  Returns the threaded store state
and the Go result `(order, err)`. -/
def svcCreateStarOrderAsync (env : Env) (req : CreateStarOrderRequest)
    (r : Except APIError HTTPResp) (σ : StoreState) :
    StoreState × Except APIError Order :=
  match clientCreateStarOrderAsync env r with
  | .error e => (σ, .error e)
  | .ok resp =>
    match env.parseTime resp.createdAt with
    | none => (σ, .error (InternalServerError "Invalid created_at timestamp"))
    | some createdAt =>
      match env.parseUUID resp.orderID with
      | none => (σ, .error (InternalServerError "Invalid order_id"))
      | some orderID =>
        match repoCreateOrder σ (mkStarAsyncOrder req resp createdAt orderID) with
        | (σ', some _) => (σ', .error (InternalServerError "Failed to save order"))
        | (σ', none) => (σ', .ok (mkStarAsyncOrder req resp createdAt orderID))

/-- `orderService.CreateStarOrderSync` (lines 82-139): client call,
timestamp parses, status coercion, `order_id` parse, order construction
with the coerced status, persistence. -/
def svcCreateStarOrderSync (env : Env) (req : CreateStarOrderRequest)
    (r : Except APIError HTTPResp) (σ : StoreState) :
    StoreState × Except APIError Order :=
  match clientCreateStarOrderSync env r with
  | .error e => (σ, .error e)
  | .ok resp =>
    match env.parseTime resp.createdAt with
    | none => (σ, .error (InternalServerError "Invalid created_at timestamp"))
    | some createdAt =>
      match parseCompletedAt env resp.completedAt with
      | .error e => (σ, .error e)
      | .ok completedAt =>
        match env.parseUUID resp.orderID with
        | none => (σ, .error (InternalServerError "Invalid order_id"))
        | some orderID =>
          match repoCreateOrder σ (mkStarSyncOrder req resp createdAt completedAt env.now orderID) with
          | (σ', some _) => (σ', .error (InternalServerError "Failed to save order"))
          | (σ', none) => (σ', .ok (mkStarSyncOrder req resp createdAt completedAt env.now orderID))

/-- `orderService.CreatePremiumOrderAsync` (lines 142-181). -/
def svcCreatePremiumOrderAsync (env : Env) (req : CreatePremiumOrderRequest)
    (r : Except APIError HTTPResp) (σ : StoreState) :
    StoreState × Except APIError Order :=
  match clientCreatePremiumOrderAsync env r with
  | .error e => (σ, .error e)
  | .ok resp =>
    match env.parseTime resp.createdAt with
    | none => (σ, .error (InternalServerError "Invalid created_at timestamp"))
    | some createdAt =>
      match env.parseUUID resp.orderID with
      | none => (σ, .error (InternalServerError "Invalid order_id"))
      | some orderID =>
        match repoCreateOrder σ (mkPremiumAsyncOrder req resp createdAt orderID) with
        | (σ', some _) => (σ', .error (InternalServerError "Failed to save order"))
        | (σ', none) => (σ', .ok (mkPremiumAsyncOrder req resp createdAt orderID))

/-- `orderService.CreatePremiumOrderSync` (lines 184-241). -/
def svcCreatePremiumOrderSync (env : Env) (req : CreatePremiumOrderRequest)
    (r : Except APIError HTTPResp) (σ : StoreState) :
    StoreState × Except APIError Order :=
  match clientCreatePremiumOrderSync env r with
  | .error e => (σ, .error e)
  | .ok resp =>
    match env.parseTime resp.createdAt with
    | none => (σ, .error (InternalServerError "Invalid created_at timestamp"))
    | some createdAt =>
      match parseCompletedAt env resp.completedAt with
      | .error e => (σ, .error e)
      | .ok completedAt =>
        match env.parseUUID resp.orderID with
        | none => (σ, .error (InternalServerError "Invalid order_id"))
        | some orderID =>
          match repoCreateOrder σ (mkPremiumSyncOrder req resp createdAt completedAt env.now orderID) with
          | (σ', some _) => (σ', .error (InternalServerError "Failed to save order"))
          | (σ', none) => (σ', .ok (mkPremiumSyncOrder req resp createdAt completedAt env.now orderID))

/-- An inbound webhook request: the `X-iStar-Signature` header value and
the raw request body. -/
structure WebhookInput where
  signature : String
  body : String
deriving DecidableEq, Repr

/-- The argument bundle the webhook handler passes to
`UpdateOrderStatus`: status, `tx_hash`, `completed_at` and the optional
`order.error` string, all taken from the payload. -/
def mkWebhookUpdate (payload : WebhookPayload) (orderID status : String) : UpdateCall :=
  { orderID := orderID
    status := status
    txHash := payload.txHash
    completedAt := payload.completedAt
    errorMessage := lookupString payload.order "error" }

/-- The part of `WebhookHandler.HandleWebhookHandler` after signature
verification: bind the JSON payload, extract `id` and `status` (string
type assertions on the order sub-object), copy `tx_hash`, `completed_at`
and the optional `order.error`, and call `UpdateOrderStatus`.  Returns
the threaded store state, the list of store update calls issued, and
the handler outcome (`.ok ()` = the 200 acknowledgement). -/
def handleWebhookBody (env : Env) (inp : WebhookInput) (σ : StoreState) :
    StoreState × List UpdateCall × Except APIError Unit :=
  match env.decodeWebhook inp.body with
  | none => (σ, [], .error (ValidationError "Invalid webhook payload"))
  | some payload =>
    match lookupString payload.order "id" with
    | none => (σ, [], .error (ValidationError "Missing order ID"))
    | some orderID =>
      match lookupString payload.order "status" with
      | none => (σ, [], .error (ValidationError "Missing status"))
      | some status =>
        match repoUpdateOrderStatus σ (mkWebhookUpdate payload orderID status) with
        | (σ', some _) =>
          (σ', [mkWebhookUpdate payload orderID status],
            .error (InternalServerError "Failed to update order"))
        | (σ', none) => (σ', [mkWebhookUpdate payload orderID status], .ok ())

/-- `WebhookHandler.HandleWebhookHandler` (`security.go` lines 497-565):
when a secret is configured, compare the `X-iStar-Signature` header with
the hex HMAC-SHA256 of the raw body (`hmac.Equal` is byte equality);
mismatch aborts with an unauthorized error before anything else runs.
With no secret configured the verification block is skipped entirely. -/
def handleWebhook (env : Env) (secret : String) (inp : WebhookInput) (σ : StoreState) :
    StoreState × List UpdateCall × Except APIError Unit :=
  if secret ≠ "" then
    if inp.signature ≠ env.hmacSHA256Hex secret inp.body then
      (σ, [], .error (UnauthorizedError "Invalid webhook signature"))
    else
      handleWebhookBody env inp σ
  else
    handleWebhookBody env inp σ

/-- `subtleConstantTimeCompare` (`auth.go`): length check, then the
byte-wise OR-of-XOR accumulator loop.  Keys are byte strings. -/
def subtleConstantTimeCompare (a b : List Nat) : Bool :=
  if a.length ≠ b.length then false
  else ((a.zip b).foldl (fun r p => r ||| (p.1 ^^^ p.2)) 0) == 0

/-- `isValidAPIKey` (`auth.go` lines 44-62): both keys non-empty, then
the constant-time comparison. -/
def isValidAPIKey (inputKey validKey : List Nat) : Bool :=
  if inputKey = [] ∨ validKey = [] then false
  else subtleConstantTimeCompare inputKey validKey

/-- One operation of the system as reachable from the router: an order
creation through the orchestrator or a webhook delivery. -/
inductive SysOp where
  | starAsync (req : CreateStarOrderRequest) (r : Except APIError HTTPResp)
  | starSync (req : CreateStarOrderRequest) (r : Except APIError HTTPResp)
  | premiumAsync (req : CreatePremiumOrderRequest) (r : Except APIError HTTPResp)
  | premiumSync (req : CreatePremiumOrderRequest) (r : Except APIError HTTPResp)
  | webhook (inp : WebhookInput)

/-- Effect of one system operation on the Order Store state. -/
def sysStep (env : Env) (secret : String) (σ : StoreState) : SysOp → StoreState
  | .starAsync req r => (svcCreateStarOrderAsync env req r σ).1
  | .starSync req r => (svcCreateStarOrderSync env req r σ).1
  | .premiumAsync req r => (svcCreatePremiumOrderAsync env req r σ).1
  | .premiumSync req r => (svcCreatePremiumOrderSync env req r σ).1
  | .webhook inp => (handleWebhook env secret inp σ).1

/-- Effect of a sequence of system operations on the Order Store state. -/
def sysRun (env : Env) (secret : String) (σ : StoreState) (ops : List SysOp) : StoreState :=
  ops.foldl (sysStep env secret) σ

/-- The spec's classification of an upstream order-creation response
(§4.1), written from the spec's words for the refinement proof of C3:
success code and a decodable body give the typed response, success code
with an undecodable body is an internal error, 400/401/404 map to
validation/unauthorized/not-found, and every other code is an internal
error carrying the status code. -/
def specClassifyResponse {R : Type} (success : Nat) (decode : String → Option R)
    (resp : HTTPResp) : Except APIError R :=
  if resp.statusCode = success then
    match decode resp.body with
    | some v => .ok v
    | none => .error (InternalServerError "Failed to decode response")
  else if resp.statusCode = 400 then .error (ValidationError "Invalid request parameters")
  else if resp.statusCode = 401 then .error (UnauthorizedError "Invalid API key")
  else if resp.statusCode = 404 then .error (NotFoundError "Resource not found")
  else .error (InternalServerError ("Unexpected status code: " ++ toString resp.statusCode))

theorem clientStarAsync_classify (env : Env) (resp : HTTPResp) :
    clientCreateStarOrderAsync env (.ok resp) = specClassifyResponse 202 env.decodeStar resp := by
  unfold clientCreateStarOrderAsync specClassifyResponse
  by_cases h : resp.statusCode = 202
  · simp only [h, if_pos rfl, ite_not, reduceIte]
    rcases hd : env.decodeStar resp.body with _ | v <;> simp [hd]
  · simp [h]

theorem clientStarSync_classify (env : Env) (resp : HTTPResp) :
    clientCreateStarOrderSync env (.ok resp) = specClassifyResponse 200 env.decodeStar resp := by
  unfold clientCreateStarOrderSync specClassifyResponse
  by_cases h : resp.statusCode = 200
  · simp only [h, if_pos rfl, ite_not, reduceIte]
    rcases hd : env.decodeStar resp.body with _ | v <;> simp [hd]
  · simp [h]

theorem clientPremiumAsync_classify (env : Env) (resp : HTTPResp) :
    clientCreatePremiumOrderAsync env (.ok resp) =
      specClassifyResponse 202 env.decodePremium resp := by
  unfold clientCreatePremiumOrderAsync specClassifyResponse
  by_cases h : resp.statusCode = 202
  · simp only [h, if_pos rfl, ite_not, reduceIte]
    rcases hd : env.decodePremium resp.body with _ | v <;> simp [hd]
  · simp [h]

theorem clientPremiumSync_classify (env : Env) (resp : HTTPResp) :
    clientCreatePremiumOrderSync env (.ok resp) =
      specClassifyResponse 200 env.decodePremium resp := by
  unfold clientCreatePremiumOrderSync specClassifyResponse
  by_cases h : resp.statusCode = 200
  · simp only [h, if_pos rfl, ite_not, reduceIte]
    rcases hd : env.decodePremium resp.body with _ | v <;> simp [hd]
  · simp [h]

theorem svcStarAsync_state (env : Env) (req : CreateStarOrderRequest)
    (r : Except APIError HTTPResp) (σ : StoreState) :
    (svcCreateStarOrderAsync env req r σ).1 = σ := by
  unfold svcCreateStarOrderAsync
  repeat' split
  all_goals simp_all [repoCreateOrder, repoUpdateOrderStatus]

theorem svcStarSync_state (env : Env) (req : CreateStarOrderRequest)
    (r : Except APIError HTTPResp) (σ : StoreState) :
    (svcCreateStarOrderSync env req r σ).1 = σ := by
  unfold svcCreateStarOrderSync
  repeat' split
  all_goals simp_all [repoCreateOrder, repoUpdateOrderStatus]

theorem svcPremiumAsync_state (env : Env) (req : CreatePremiumOrderRequest)
    (r : Except APIError HTTPResp) (σ : StoreState) :
    (svcCreatePremiumOrderAsync env req r σ).1 = σ := by
  unfold svcCreatePremiumOrderAsync
  repeat' split
  all_goals simp_all [repoCreateOrder, repoUpdateOrderStatus]

theorem svcPremiumSync_state (env : Env) (req : CreatePremiumOrderRequest)
    (r : Except APIError HTTPResp) (σ : StoreState) :
    (svcCreatePremiumOrderSync env req r σ).1 = σ := by
  unfold svcCreatePremiumOrderSync
  repeat' split
  all_goals simp_all [repoCreateOrder, repoUpdateOrderStatus]

theorem handleWebhookBody_state (env : Env) (inp : WebhookInput) (σ : StoreState) :
    (handleWebhookBody env inp σ).1 = σ := by
  unfold handleWebhookBody
  repeat' split
  all_goals simp_all [repoCreateOrder, repoUpdateOrderStatus]

theorem handleWebhook_state (env : Env) (secret : String) (inp : WebhookInput)
    (σ : StoreState) : (handleWebhook env secret inp σ).1 = σ := by
  unfold handleWebhook
  split
  · split
    · rfl
    · exact handleWebhookBody_state env inp σ
  · exact handleWebhookBody_state env inp σ

theorem sysStep_state (env : Env) (secret : String) (σ : StoreState) (op : SysOp) :
    sysStep env secret σ op = σ := by
  cases op with
  | starAsync req r => exact svcStarAsync_state env req r σ
  | starSync req r => exact svcStarSync_state env req r σ
  | premiumAsync req r => exact svcPremiumAsync_state env req r σ
  | premiumSync req r => exact svcPremiumSync_state env req r σ
  | webhook inp => exact handleWebhook_state env secret inp σ

theorem sysRun_state (env : Env) (secret : String) (σ : StoreState) (ops : List SysOp) :
    sysRun env secret σ ops = σ := by
  induction ops generalizing σ with
  | nil => rfl
  | cons op ops ih =>
    show sysRun env secret (sysStep env secret σ op) ops = σ
    rw [sysStep_state, ih]

theorem nat_lor_eq_zero_iff (m n : Nat) : m ||| n = 0 ↔ m = 0 ∧ n = 0 := by
  constructor
  · intro h
    have hb : ∀ i, m.testBit i = false ∧ n.testBit i = false := by
      intro i
      have hi := congrArg (fun x => Nat.testBit x i) h
      simp only [Nat.testBit_lor, Nat.zero_testBit, Bool.or_eq_false_iff] at hi
      exact hi
    constructor
    · exact Nat.eq_of_testBit_eq fun i => by simp [(hb i).1, Nat.zero_testBit]
    · exact Nat.eq_of_testBit_eq fun i => by simp [(hb i).2, Nat.zero_testBit]
  · rintro ⟨rfl, rfl⟩
    rfl

theorem foldl_lor_xor_eq_zero (l : List (Nat × Nat)) (acc : Nat) :
    (l.foldl (fun r p => r ||| (p.1 ^^^ p.2)) acc = 0) ↔
      (acc = 0 ∧ ∀ p ∈ l, p.1 = p.2) := by
  induction l generalizing acc with
  | nil => simp
  | cons hd tl ih =>
    simp only [List.foldl_cons, ih, List.mem_cons, nat_lor_eq_zero_iff, Nat.xor_eq_zero]
    constructor
    · rintro ⟨⟨h0, hxy⟩, hall⟩
      exact ⟨h0, fun p hp => hp.elim (fun h => h ▸ hxy) (hall p)⟩
    · rintro ⟨h0, hall⟩
      exact ⟨⟨h0, hall hd (Or.inl rfl)⟩, fun p hp => hall p (Or.inr hp)⟩

theorem zip_forall_eq_iff : ∀ (a b : List Nat), a.length = b.length →
    ((∀ p ∈ a.zip b, p.1 = p.2) ↔ a = b)
  | [], [], _ => by simp
  | [], _ :: _, h => by simp at h
  | _ :: _, [], h => by simp at h
  | x :: a, y :: b, h => by
    simp only [List.zip_cons_cons, List.mem_cons, List.cons.injEq]
    rw [← zip_forall_eq_iff a b (by simpa using h)]
    constructor
    · intro hall
      exact ⟨hall (x, y) (Or.inl rfl), fun p hp => hall p (Or.inr hp)⟩
    · rintro ⟨hxy, hall⟩ p hp
      rcases hp with rfl | hp
      · exact hxy
      · exact hall p hp

theorem subtleConstantTimeCompare_eq_true_iff (a b : List Nat) :
    subtleConstantTimeCompare a b = true ↔ a = b := by
  unfold subtleConstantTimeCompare
  by_cases h : a.length = b.length
  · rw [if_neg (fun hc => hc h), beq_iff_eq, foldl_lor_xor_eq_zero]
    rw [zip_forall_eq_iff a b h]
    simp
  · rw [if_pos h]
    simp only [Bool.false_eq_true, false_iff]
    exact fun e => h (by rw [e])

/-- C8: `isValidAPIKey` returns valid exactly when the sanitized input
key and the configured key are both non-empty and equal as (byte)
strings.  In particular equal-length equal-content keys are accepted,
any single-byte difference is rejected, unequal-length inputs are
rejected (the length check precedes the byte loop), and an empty input
always fails. -/
theorem c8_apikey_comparison (a b : List Nat) :
    isValidAPIKey a b = true ↔ (a ≠ [] ∧ b ≠ [] ∧ a = b) := by
  unfold isValidAPIKey
  by_cases ha : a = []
  · simp [ha]
  · by_cases hb : b = []
    · simp [ha, hb]
    · rw [if_neg (by simp [ha, hb]), subtleConstantTimeCompare_eq_true_iff]
      simp [ha, hb]

/-- A concrete webhook payload used to instantiate hypotheses of the
claim theorems at evaluable inputs. -/
def payloadW : WebhookPayload :=
  { eventType := "order.completed"
    occurredAt := ⟨0⟩
    order := [("id", .str "0f2a"), ("status", .str "completed")]
    txHash := some "0xabc"
    completedAt := none
    quantity := none }

/-- A concrete async-path provider response body (decoded). -/
def respW : StarOrderResponse :=
  { orderID := "uuid-1", status := "pending", username := "alice", quantity := 100
    amount := 12.5, createdAt := "2024-01-01T00:00:00Z", completedAt := none, txHash := none }

/-- A concrete sync-path provider response with an unrecognized status. -/
def respSyncW : StarOrderResponse :=
  { orderID := "uuid-1", status := "unknown", username := "alice", quantity := 100
    amount := 12.5, createdAt := "2024-01-01T00:00:00Z", completedAt := none
    txHash := some "0xabc" }

/-- A concrete premium provider response. -/
def premRespW : PremiumOrderResponse :=
  { orderID := "uuid-1", status := "completed", username := "bob", months := 3
    amount := 20.0, createdAt := "2024-01-01T00:00:00Z", completedAt := none
    txHash := some "0xdef" }

/-- A concrete star response whose created_at does not parse. -/
def respBadW : StarOrderResponse :=
  { orderID := "uuid-1", status := "pending", username := "alice", quantity := 100
    amount := 12.5, createdAt := "not-a-time", completedAt := none, txHash := none }

/-- A concrete webhook payload whose order sub-object has no "id". -/
def payloadNoIdW : WebhookPayload :=
  { eventType := "order.completed"
    occurredAt := ⟨0⟩
    order := [("status", .str "completed")]
    txHash := none
    completedAt := none
    quantity := none }

/-- A concrete instantiation of the external collaborators. -/
def envW : Env :=
  { parseTime := fun s => if s = "2024-01-01T00:00:00Z" then some ⟨0⟩ else none
    parseUUID := fun s => if s = "uuid-1" then some ⟨1⟩ else none
    decodeStar := fun b =>
      if b = "star" then some respW
      else if b = "starsync" then some respSyncW
      else if b = "starbad" then some respBadW
      else none
    decodePremium := fun b => if b = "prem" then some premRespW else none
    decodeWebhook := fun b =>
      if b = "wh" then some payloadW
      else if b = "whnoid" then some payloadNoIdW
      else none
    hmacSHA256Hex := fun _ _ => "sig"
    now := ⟨5⟩ }

/-- A concrete order sitting in the store with a terminal status. -/
def orderW : Order :=
  { id := ⟨1⟩, type := OrderTypeStar, status := StatusCompleted, username := "alice"
    recipientHash := "h1", quantity := some 100, months := none, amount := 12.5
    walletType := "ton", txHash := some "0xabc", createdAt := ⟨0⟩, updatedAt := ⟨0⟩
    completedAt := some ⟨0⟩, errorMessage := "" }

/-- C4: for every order reachable through the system's operations
(creation by the orchestrator followed by any sequence of webhook
reconciliation steps), once the order's status is completed or failed it
never changes again: no webhook update moves an order out of a terminal
status.  In this source both Order Store operations are stubs that
return `nil` without touching any state, so the store contents are
preserved verbatim by every operation. -/
theorem c4_terminal_status_stable (env : Env) (secret : String) (σ : StoreState)
    (ops : List SysOp) (o : Order) (hmem : o ∈ σ)
    (hterm : o.status = StatusCompleted ∨ o.status = StatusFailed) :
    sysRun env secret σ ops = σ ∧ o ∈ sysRun env secret σ ops ∧
      (o.status = StatusCompleted ∨ o.status = StatusFailed) := by
  refine ⟨sysRun_state env secret σ ops, ?_, hterm⟩
  rw [sysRun_state]
  exact hmem

/-- Witness for C4 at a concrete completed order and a concrete webhook
delivery that tries to report a different status. -/
theorem c4_terminal_status_stable_witness :
    sysRun envW "s" [orderW] [SysOp.webhook ⟨"sig", "wh"⟩] = [orderW] ∧
      orderW ∈ sysRun envW "s" [orderW] [SysOp.webhook ⟨"sig", "wh"⟩] ∧
      (orderW.status = StatusCompleted ∨ orderW.status = StatusFailed) :=
  c4_terminal_status_stable envW "s" [orderW] [SysOp.webhook ⟨"sig", "wh"⟩] orderW
    (List.mem_singleton.mpr rfl) (Or.inl rfl)

theorem svcStarAsync_ok (env : Env) (req : CreateStarOrderRequest)
    (r : Except APIError HTTPResp) (resp : StarOrderResponse) (t : GoTime) (u : GoUUID)
    (σ : StoreState)
    (hc : clientCreateStarOrderAsync env r = .ok resp)
    (ht : env.parseTime resp.createdAt = some t)
    (hu : env.parseUUID resp.orderID = some u) :
    svcCreateStarOrderAsync env req r σ = (σ, .ok (mkStarAsyncOrder req resp t u)) := by
  unfold svcCreateStarOrderAsync
  rw [hc]
  simp [ht, hu, repoCreateOrder]

theorem svcStarSync_ok (env : Env) (req : CreateStarOrderRequest)
    (r : Except APIError HTTPResp) (resp : StarOrderResponse) (t : GoTime)
    (ca : Option GoTime) (u : GoUUID) (σ : StoreState)
    (hc : clientCreateStarOrderSync env r = .ok resp)
    (ht : env.parseTime resp.createdAt = some t)
    (hca : parseCompletedAt env resp.completedAt = .ok ca)
    (hu : env.parseUUID resp.orderID = some u) :
    svcCreateStarOrderSync env req r σ = (σ, .ok (mkStarSyncOrder req resp t ca env.now u)) := by
  unfold svcCreateStarOrderSync
  rw [hc]
  simp [ht, hca, hu, repoCreateOrder]

theorem svcPremiumAsync_ok (env : Env) (req : CreatePremiumOrderRequest)
    (r : Except APIError HTTPResp) (resp : PremiumOrderResponse) (t : GoTime) (u : GoUUID)
    (σ : StoreState)
    (hc : clientCreatePremiumOrderAsync env r = .ok resp)
    (ht : env.parseTime resp.createdAt = some t)
    (hu : env.parseUUID resp.orderID = some u) :
    svcCreatePremiumOrderAsync env req r σ = (σ, .ok (mkPremiumAsyncOrder req resp t u)) := by
  unfold svcCreatePremiumOrderAsync
  rw [hc]
  simp [ht, hu, repoCreateOrder]

theorem svcPremiumSync_ok (env : Env) (req : CreatePremiumOrderRequest)
    (r : Except APIError HTTPResp) (resp : PremiumOrderResponse) (t : GoTime)
    (ca : Option GoTime) (u : GoUUID) (σ : StoreState)
    (hc : clientCreatePremiumOrderSync env r = .ok resp)
    (ht : env.parseTime resp.createdAt = some t)
    (hca : parseCompletedAt env resp.completedAt = .ok ca)
    (hu : env.parseUUID resp.orderID = some u) :
    svcCreatePremiumOrderSync env req r σ =
      (σ, .ok (mkPremiumSyncOrder req resp t ca env.now u)) := by
  unfold svcCreatePremiumOrderSync
  rw [hc]
  simp [ht, hca, hu, repoCreateOrder]

theorem svcStarAsync_ok_inv (env : Env) (req : CreateStarOrderRequest)
    (r : Except APIError HTTPResp) (σ : StoreState) (order : Order)
    (h : (svcCreateStarOrderAsync env req r σ).2 = .ok order) :
    ∃ resp t u, clientCreateStarOrderAsync env r = .ok resp ∧
      env.parseTime resp.createdAt = some t ∧
      env.parseUUID resp.orderID = some u ∧
      order = mkStarAsyncOrder req resp t u := by
  unfold svcCreateStarOrderAsync at h
  split at h
  · simp at h
  · rename_i resp heq
    split at h
    · simp at h
    · rename_i t ht
      split at h
      · simp at h
      · rename_i u hu
        split at h
        · rename_i hrepo
          simp [repoCreateOrder] at hrepo
        · rename_i hrepo
          simp at h
          exact ⟨resp, t, u, heq, ht, hu, h.symm⟩

theorem svcStarSync_ok_inv (env : Env) (req : CreateStarOrderRequest)
    (r : Except APIError HTTPResp) (σ : StoreState) (order : Order)
    (h : (svcCreateStarOrderSync env req r σ).2 = .ok order) :
    ∃ resp t ca u, clientCreateStarOrderSync env r = .ok resp ∧
      env.parseTime resp.createdAt = some t ∧
      parseCompletedAt env resp.completedAt = .ok ca ∧
      env.parseUUID resp.orderID = some u ∧
      order = mkStarSyncOrder req resp t ca env.now u := by
  unfold svcCreateStarOrderSync at h
  split at h
  · simp at h
  · rename_i resp heq
    split at h
    · simp at h
    · rename_i t ht
      split at h
      · simp at h
      · rename_i ca hca
        split at h
        · simp at h
        · rename_i u hu
          split at h
          · rename_i hrepo
            simp [repoCreateOrder] at hrepo
          · rename_i hrepo
            simp at h
            exact ⟨resp, t, ca, u, heq, ht, hca, hu, h.symm⟩

theorem svcPremiumAsync_ok_inv (env : Env) (req : CreatePremiumOrderRequest)
    (r : Except APIError HTTPResp) (σ : StoreState) (order : Order)
    (h : (svcCreatePremiumOrderAsync env req r σ).2 = .ok order) :
    ∃ resp t u, clientCreatePremiumOrderAsync env r = .ok resp ∧
      env.parseTime resp.createdAt = some t ∧
      env.parseUUID resp.orderID = some u ∧
      order = mkPremiumAsyncOrder req resp t u := by
  unfold svcCreatePremiumOrderAsync at h
  split at h
  · simp at h
  · rename_i resp heq
    split at h
    · simp at h
    · rename_i t ht
      split at h
      · simp at h
      · rename_i u hu
        split at h
        · rename_i hrepo
          simp [repoCreateOrder] at hrepo
        · rename_i hrepo
          simp at h
          exact ⟨resp, t, u, heq, ht, hu, h.symm⟩

theorem svcPremiumSync_ok_inv (env : Env) (req : CreatePremiumOrderRequest)
    (r : Except APIError HTTPResp) (σ : StoreState) (order : Order)
    (h : (svcCreatePremiumOrderSync env req r σ).2 = .ok order) :
    ∃ resp t ca u, clientCreatePremiumOrderSync env r = .ok resp ∧
      env.parseTime resp.createdAt = some t ∧
      parseCompletedAt env resp.completedAt = .ok ca ∧
      env.parseUUID resp.orderID = some u ∧
      order = mkPremiumSyncOrder req resp t ca env.now u := by
  unfold svcCreatePremiumOrderSync at h
  split at h
  · simp at h
  · rename_i resp heq
    split at h
    · simp at h
    · rename_i t ht
      split at h
      · simp at h
      · rename_i ca hca
        split at h
        · simp at h
        · rename_i u hu
          split at h
          · rename_i hrepo
            simp [repoCreateOrder] at hrepo
          · rename_i hrepo
            simp at h
            exact ⟨resp, t, ca, u, heq, ht, hca, hu, h.symm⟩

theorem coerceSyncStatus_terminal (s : String) :
    coerceSyncStatus s = StatusCompleted ∨ coerceSyncStatus s = StatusFailed := by
  unfold coerceSyncStatus
  by_cases h : s ≠ StatusCompleted ∧ s ≠ StatusFailed
  · rw [if_pos h]
    exact Or.inr rfl
  · rw [if_neg h]
    rcases not_and_or.mp h with h1 | h2
    · exact Or.inl (not_not.mp h1)
    · exact Or.inr (not_not.mp h2)

theorem coerceSyncStatus_other (s : String) (h1 : s ≠ StatusCompleted)
    (h2 : s ≠ StatusFailed) : coerceSyncStatus s = StatusFailed := by
  unfold coerceSyncStatus
  rw [if_pos ⟨h1, h2⟩]

/-- A concrete valid star order request. -/
def reqW : CreateStarOrderRequest :=
  { username := "alice", recipientHash := "h1", quantity := 100, walletType := "ton" }

/-- A concrete valid premium order request. -/
def preqW : CreatePremiumOrderRequest :=
  { username := "bob", recipientHash := "h2", months := 3, walletType := "ton" }

/-- C1: for every valid star order request (quantity in [50, 1000000])
and every provider response with HTTP status 202 whose body decodes,
whose created_at parses as RFC3339 and whose order_id parses as a UUID,
CreateStarOrderAsync returns an Order whose status is pending and whose
quantity equals the quantity reported in the provider response body. -/
theorem c1_star_async_pending (env : Env) (req : CreateStarOrderRequest)
    (hr : HTTPResp) (resp : StarOrderResponse) (t : GoTime) (u : GoUUID) (σ : StoreState)
    (hq1 : 50 ≤ req.quantity) (hq2 : req.quantity ≤ 1000000)
    (hcode : hr.statusCode = 202)
    (hdec : env.decodeStar hr.body = some resp)
    (ht : env.parseTime resp.createdAt = some t)
    (hu : env.parseUUID resp.orderID = some u) :
    ∃ order : Order, (svcCreateStarOrderAsync env req (.ok hr) σ).2 = .ok order ∧
      order.status = StatusPending ∧ order.quantity = some resp.quantity := by
  have hc : clientCreateStarOrderAsync env (.ok hr) = .ok resp := by
    simp [clientCreateStarOrderAsync, hcode, hdec]
  exact ⟨mkStarAsyncOrder req resp t u,
    by rw [svcStarAsync_ok env req (.ok hr) resp t u σ hc ht hu], rfl, rfl⟩

/-- Witness for C1 at the concrete request `reqW` (quantity 100) and the
concrete 202 provider response `respW`. -/
theorem c1_star_async_pending_witness :
    ∃ order : Order, (svcCreateStarOrderAsync envW reqW (.ok ⟨202, "star"⟩) []).2 = .ok order ∧
      order.status = StatusPending ∧ order.quantity = some respW.quantity :=
  c1_star_async_pending envW reqW ⟨202, "star"⟩ respW ⟨0⟩ ⟨1⟩ []
    (by decide) (by decide) rfl (by rfl) (by rfl) (by rfl)

/-- C2: for every successful synchronous order creation (star or
premium), if the provider-reported status string is neither "completed"
nor "failed", the constructed Order's status is failed; consequently
every Order returned by a synchronous variant has status in
{completed, failed}. -/
theorem c2_sync_status_coerced :
    (∀ env req r σ order, (svcCreateStarOrderSync env req r σ).2 = .ok order →
      order.status = StatusCompleted ∨ order.status = StatusFailed) ∧
    (∀ env req r σ order, (svcCreatePremiumOrderSync env req r σ).2 = .ok order →
      order.status = StatusCompleted ∨ order.status = StatusFailed) ∧
    (∀ env req r σ order resp, clientCreateStarOrderSync env r = .ok resp →
      resp.status ≠ StatusCompleted → resp.status ≠ StatusFailed →
      (svcCreateStarOrderSync env req r σ).2 = .ok order →
      order.status = StatusFailed) ∧
    (∀ env req r σ order resp, clientCreatePremiumOrderSync env r = .ok resp →
      resp.status ≠ StatusCompleted → resp.status ≠ StatusFailed →
      (svcCreatePremiumOrderSync env req r σ).2 = .ok order →
      order.status = StatusFailed) := by
  refine ⟨?_, ?_, ?_, ?_⟩
  · intro env req r σ order h
    obtain ⟨resp, t, ca, u, _, _, _, _, rfl⟩ := svcStarSync_ok_inv env req r σ order h
    exact coerceSyncStatus_terminal resp.status
  · intro env req r σ order h
    obtain ⟨resp, t, ca, u, _, _, _, _, rfl⟩ := svcPremiumSync_ok_inv env req r σ order h
    exact coerceSyncStatus_terminal resp.status
  · intro env req r σ order resp hc h1 h2 h
    obtain ⟨resp2, t, ca, u, hc2, _, _, _, rfl⟩ := svcStarSync_ok_inv env req r σ order h
    have hr : resp2 = resp := Except.ok.inj (hc2.symm.trans hc)
    subst hr
    exact coerceSyncStatus_other resp2.status h1 h2
  · intro env req r σ order resp hc h1 h2 h
    obtain ⟨resp2, t, ca, u, hc2, _, _, _, rfl⟩ := svcPremiumSync_ok_inv env req r σ order h
    have hr : resp2 = resp := Except.ok.inj (hc2.symm.trans hc)
    subst hr
    exact coerceSyncStatus_other resp2.status h1 h2

/-- Witness for C2 at a concrete 200 synchronous response whose status
is the unrecognized string "unknown". -/
theorem c2_sync_status_coerced_witness :
    (svcCreateStarOrderSync envW reqW (.ok ⟨200, "starsync"⟩) []).2 =
      .ok (mkStarSyncOrder reqW respSyncW ⟨0⟩ none envW.now ⟨1⟩) ∧
    (mkStarSyncOrder reqW respSyncW ⟨0⟩ none envW.now ⟨1⟩).status = StatusFailed :=
  ⟨by rfl,
   c2_sync_status_coerced.2.2.1 envW reqW (.ok ⟨200, "starsync"⟩) []
     (mkStarSyncOrder reqW respSyncW ⟨0⟩ none envW.now ⟨1⟩) respSyncW (by rfl)
     (by decide) (by decide) (by rfl)⟩

/-- C9: every Order constructed by the orchestrator has exactly one of
quantity and months populated, determined by its type: star orders set
quantity and leave months nil, premium orders set months and leave
quantity nil; quantity and months are never both set. -/
theorem c9_quantity_months_exclusive :
    (∀ env req r σ order, (svcCreateStarOrderAsync env req r σ).2 = .ok order →
      order.type = OrderTypeStar ∧ order.quantity.isSome = true ∧ order.months = none) ∧
    (∀ env req r σ order, (svcCreateStarOrderSync env req r σ).2 = .ok order →
      order.type = OrderTypeStar ∧ order.quantity.isSome = true ∧ order.months = none) ∧
    (∀ env req r σ order, (svcCreatePremiumOrderAsync env req r σ).2 = .ok order →
      order.type = OrderTypePremium ∧ order.months.isSome = true ∧ order.quantity = none) ∧
    (∀ env req r σ order, (svcCreatePremiumOrderSync env req r σ).2 = .ok order →
      order.type = OrderTypePremium ∧ order.months.isSome = true ∧ order.quantity = none) := by
  refine ⟨?_, ?_, ?_, ?_⟩
  · intro env req r σ order h
    obtain ⟨resp, t, u, _, _, _, rfl⟩ := svcStarAsync_ok_inv env req r σ order h
    exact ⟨rfl, rfl, rfl⟩
  · intro env req r σ order h
    obtain ⟨resp, t, ca, u, _, _, _, _, rfl⟩ := svcStarSync_ok_inv env req r σ order h
    exact ⟨rfl, rfl, rfl⟩
  · intro env req r σ order h
    obtain ⟨resp, t, u, _, _, _, rfl⟩ := svcPremiumAsync_ok_inv env req r σ order h
    exact ⟨rfl, rfl, rfl⟩
  · intro env req r σ order h
    obtain ⟨resp, t, ca, u, _, _, _, _, rfl⟩ := svcPremiumSync_ok_inv env req r σ order h
    exact ⟨rfl, rfl, rfl⟩

/-- Witness for C9 at a concrete successful star-async run and a
concrete successful premium-async run. -/
theorem c9_quantity_months_exclusive_witness :
    ((mkStarAsyncOrder reqW respW ⟨0⟩ ⟨1⟩).type = OrderTypeStar ∧
      (mkStarAsyncOrder reqW respW ⟨0⟩ ⟨1⟩).quantity.isSome = true ∧
      (mkStarAsyncOrder reqW respW ⟨0⟩ ⟨1⟩).months = none) ∧
    ((mkPremiumAsyncOrder preqW premRespW ⟨0⟩ ⟨1⟩).type = OrderTypePremium ∧
      (mkPremiumAsyncOrder preqW premRespW ⟨0⟩ ⟨1⟩).months.isSome = true ∧
      (mkPremiumAsyncOrder preqW premRespW ⟨0⟩ ⟨1⟩).quantity = none) :=
  ⟨c9_quantity_months_exclusive.1 envW reqW (.ok ⟨202, "star"⟩) []
     (mkStarAsyncOrder reqW respW ⟨0⟩ ⟨1⟩) (by rfl),
   c9_quantity_months_exclusive.2.2.1 envW preqW (.ok ⟨202, "prem"⟩) []
     (mkPremiumAsyncOrder preqW premRespW ⟨0⟩ ⟨1⟩) (by rfl)⟩

theorem handleWebhook_pass (env : Env) (secret : String) (inp : WebhookInput)
    (σ : StoreState)
    (hpass : secret = "" ∨ inp.signature = env.hmacSHA256Hex secret inp.body) :
    handleWebhook env secret inp σ = handleWebhookBody env inp σ := by
  unfold handleWebhook
  rcases hpass with h | h
  · rw [if_neg (fun hc => hc h)]
  · by_cases hs : secret ≠ ""
    · rw [if_pos hs, if_neg (fun hc => hc h)]
    · rw [if_neg hs]

theorem handleWebhook_mismatch (env : Env) (secret : String) (inp : WebhookInput)
    (σ : StoreState) (hs : secret ≠ "")
    (hsig : inp.signature ≠ env.hmacSHA256Hex secret inp.body) :
    handleWebhook env secret inp σ =
      (σ, [], .error (UnauthorizedError "Invalid webhook signature")) := by
  unfold handleWebhook
  rw [if_pos hs, if_pos hsig]

theorem handleWebhookBody_bad_payload (env : Env) (inp : WebhookInput) (σ : StoreState)
    (hdec : env.decodeWebhook inp.body = none) :
    handleWebhookBody env inp σ = (σ, [], .error (ValidationError "Invalid webhook payload")) := by
  unfold handleWebhookBody
  rw [hdec]

theorem handleWebhookBody_missing_id (env : Env) (inp : WebhookInput) (σ : StoreState)
    (payload : WebhookPayload)
    (hdec : env.decodeWebhook inp.body = some payload)
    (hid : lookupString payload.order "id" = none) :
    handleWebhookBody env inp σ = (σ, [], .error (ValidationError "Missing order ID")) := by
  unfold handleWebhookBody
  rw [hdec]
  simp [hid]

theorem handleWebhookBody_missing_status (env : Env) (inp : WebhookInput) (σ : StoreState)
    (payload : WebhookPayload) (orderID : String)
    (hdec : env.decodeWebhook inp.body = some payload)
    (hid : lookupString payload.order "id" = some orderID)
    (hst : lookupString payload.order "status" = none) :
    handleWebhookBody env inp σ = (σ, [], .error (ValidationError "Missing status")) := by
  unfold handleWebhookBody
  rw [hdec]
  simp [hid, hst]

theorem handleWebhookBody_ok (env : Env) (inp : WebhookInput) (σ : StoreState)
    (payload : WebhookPayload) (orderID status : String)
    (hdec : env.decodeWebhook inp.body = some payload)
    (hid : lookupString payload.order "id" = some orderID)
    (hst : lookupString payload.order "status" = some status) :
    handleWebhookBody env inp σ =
      (σ, [mkWebhookUpdate payload orderID status], .ok ()) := by
  unfold handleWebhookBody
  rw [hdec]
  simp [hid, hst, repoUpdateOrderStatus]

theorem handleWebhookBody_trace_inv (env : Env) (inp : WebhookInput) (σ : StoreState)
    (h : (handleWebhookBody env inp σ).2.1 ≠ []) :
    ∃ payload orderID status, env.decodeWebhook inp.body = some payload ∧
      lookupString payload.order "id" = some orderID ∧
      lookupString payload.order "status" = some status := by
  unfold handleWebhookBody at h
  split at h
  · simp at h
  · rename_i payload hdec
    split at h
    · simp at h
    · rename_i orderID hid
      split at h
      · simp at h
      · rename_i status hst
        exact ⟨payload, orderID, status, hdec, hid, hst⟩

/-- C5: for every inbound webhook request, the Order Store update is
invoked only if (when a secret is configured) the X-iStar-Signature
header equals the hex HMAC-SHA256 of the exact raw body under the
secret, and the payload's order sub-object contains both "id" and
"status" as strings; a signature mismatch yields an unauthorized error,
a missing or non-string id or status yields a validation error, and in
both failure cases no state is mutated and the store is never called;
when no secret is configured the signature verification is skipped
entirely.  (The constant-time character of `hmac.Equal` is a timing
property of the library call; functionally it is byte equality, which
is what the embedding states.) -/
theorem c5_webhook_verification :
    (∀ env secret inp σ, (handleWebhook env secret inp σ).2.1 ≠ [] →
      (secret = "" ∨ inp.signature = env.hmacSHA256Hex secret inp.body) ∧
        ∃ payload orderID status, env.decodeWebhook inp.body = some payload ∧
          lookupString payload.order "id" = some orderID ∧
          lookupString payload.order "status" = some status) ∧
    (∀ env secret inp σ, secret ≠ "" →
      inp.signature ≠ env.hmacSHA256Hex secret inp.body →
      handleWebhook env secret inp σ =
        (σ, [], .error (UnauthorizedError "Invalid webhook signature"))) ∧
    (∀ env secret inp σ payload,
      (secret = "" ∨ inp.signature = env.hmacSHA256Hex secret inp.body) →
      env.decodeWebhook inp.body = some payload →
      lookupString payload.order "id" = none →
      handleWebhook env secret inp σ = (σ, [], .error (ValidationError "Missing order ID"))) ∧
    (∀ env secret inp σ payload orderID,
      (secret = "" ∨ inp.signature = env.hmacSHA256Hex secret inp.body) →
      env.decodeWebhook inp.body = some payload →
      lookupString payload.order "id" = some orderID →
      lookupString payload.order "status" = none →
      handleWebhook env secret inp σ = (σ, [], .error (ValidationError "Missing status"))) ∧
    (∀ env secret inp σ, secret = "" →
      handleWebhook env secret inp σ = handleWebhookBody env inp σ) := by
  refine ⟨?_, ?_, ?_, ?_, ?_⟩
  · intro env secret inp σ h
    have hpass : secret = "" ∨ inp.signature = env.hmacSHA256Hex secret inp.body := by
      by_cases hs : secret = ""
      · exact Or.inl hs
      · by_cases hsig : inp.signature = env.hmacSHA256Hex secret inp.body
        · exact Or.inr hsig
        · exfalso
          apply h
          rw [handleWebhook_mismatch env secret inp σ hs hsig]
    refine ⟨hpass, ?_⟩
    rw [handleWebhook_pass env secret inp σ hpass] at h
    exact handleWebhookBody_trace_inv env inp σ h
  · intro env secret inp σ hs hsig
    exact handleWebhook_mismatch env secret inp σ hs hsig
  · intro env secret inp σ payload hpass hdec hid
    rw [handleWebhook_pass env secret inp σ hpass]
    exact handleWebhookBody_missing_id env inp σ payload hdec hid
  · intro env secret inp σ payload orderID hpass hdec hid hst
    rw [handleWebhook_pass env secret inp σ hpass]
    exact handleWebhookBody_missing_status env inp σ payload orderID hdec hid hst
  · intro env secret inp σ hs
    exact handleWebhook_pass env secret inp σ (Or.inl hs)

/-- Witness for C5: a concrete signature mismatch and a concrete payload
whose order sub-object has no "id". -/
theorem c5_webhook_verification_witness :
    handleWebhook envW "s" ⟨"bad", "wh"⟩ [] =
      ([], [], .error (UnauthorizedError "Invalid webhook signature")) ∧
    handleWebhook envW "s" ⟨"sig", "whnoid"⟩ [] =
      ([], [], .error (ValidationError "Missing order ID")) :=
  ⟨c5_webhook_verification.2.1 envW "s" ⟨"bad", "wh"⟩ [] (by decide) (by decide),
   c5_webhook_verification.2.2.1 envW "s" ⟨"sig", "whnoid"⟩ [] payloadNoIdW
     (Or.inr (by decide)) (by rfl) (by rfl)⟩

/-- C6: for every webhook payload that passes verification and field
extraction, the handler issues exactly one Order Store update for the
order identified by the payload's order.id, carrying exactly the
status, txHash, completedAt and errorMessage extracted from the payload
(`mkWebhookUpdate`); the store state is left untouched, and replaying
the same payload reapplies the identical update. -/
theorem c6_webhook_single_update (env : Env) (secret : String) (inp : WebhookInput)
    (σ : StoreState) (payload : WebhookPayload) (orderID status : String)
    (hpass : secret = "" ∨ inp.signature = env.hmacSHA256Hex secret inp.body)
    (hdec : env.decodeWebhook inp.body = some payload)
    (hid : lookupString payload.order "id" = some orderID)
    (hst : lookupString payload.order "status" = some status) :
    handleWebhook env secret inp σ =
      (σ, [mkWebhookUpdate payload orderID status], .ok ()) ∧
    handleWebhook env secret inp ((handleWebhook env secret inp σ).1) =
      (σ, [mkWebhookUpdate payload orderID status], .ok ()) := by
  have h1 : handleWebhook env secret inp σ =
      (σ, [mkWebhookUpdate payload orderID status], .ok ()) :=
    (handleWebhook_pass env secret inp σ hpass).trans
      (handleWebhookBody_ok env inp σ payload orderID status hdec hid hst)
  refine ⟨h1, ?_⟩
  rw [h1]
  exact h1

/-- Witness for C6: the spec's end-to-end scenario, a completed webhook
with tx_hash "0xabc" and a valid signature. -/
theorem c6_webhook_single_update_witness :
    handleWebhook envW "s" ⟨"sig", "wh"⟩ [] =
      ([], [mkWebhookUpdate payloadW "0f2a" "completed"], .ok ()) ∧
    handleWebhook envW "s" ⟨"sig", "wh"⟩ ((handleWebhook envW "s" ⟨"sig", "wh"⟩ []).1) =
      ([], [mkWebhookUpdate payloadW "0f2a" "completed"], .ok ()) :=
  c6_webhook_single_update envW "s" ⟨"sig", "wh"⟩ [] payloadW "0f2a" "completed"
    (Or.inr (by decide)) (by rfl) (by rfl) (by rfl)

/-- C3: for every upstream HTTP response received by an order-creation
client method, the client classifies the result exactly as the spec
describes: the success code (202 async, 200 sync) with a well-formed
JSON body yields the decoded typed response; the success code with a
body that fails to decode yields an internal error; 400 yields a
validation error; 401 an unauthorized error; 404 a not-found error; and
any other non-success code an internal error carrying that status code
(`specClassifyResponse` states the spec's classification verbatim). -/
theorem c3_client_classification (env : Env) (resp : HTTPResp) :
    clientCreateStarOrderAsync env (.ok resp) = specClassifyResponse 202 env.decodeStar resp ∧
    clientCreateStarOrderSync env (.ok resp) = specClassifyResponse 200 env.decodeStar resp ∧
    clientCreatePremiumOrderAsync env (.ok resp) =
      specClassifyResponse 202 env.decodePremium resp ∧
    clientCreatePremiumOrderSync env (.ok resp) =
      specClassifyResponse 200 env.decodePremium resp :=
  ⟨clientStarAsync_classify env resp, clientStarSync_classify env resp,
   clientPremiumAsync_classify env resp, clientPremiumSync_classify env resp⟩

/-- C7: for each of the four orchestrator operations, a failure at any
step — upstream client error, created_at parse failure, completed_at
parse failure (sync), or order_id parse failure — aborts the whole
operation with no Order returned, and the error determined by the first
failing step is returned to the caller: a client error is propagated
verbatim, and each parse failure yields the corresponding internal
error.  (Persistence failure cannot occur in this source: both store
operations always return nil, see C10.) -/
theorem c7_first_error_propagation :
    (∀ env req r σ e, clientCreateStarOrderAsync env r = .error e →
      svcCreateStarOrderAsync env req r σ = (σ, .error e)) ∧
    (∀ env req r σ e, clientCreateStarOrderSync env r = .error e →
      svcCreateStarOrderSync env req r σ = (σ, .error e)) ∧
    (∀ env req r σ e, clientCreatePremiumOrderAsync env r = .error e →
      svcCreatePremiumOrderAsync env req r σ = (σ, .error e)) ∧
    (∀ env req r σ e, clientCreatePremiumOrderSync env r = .error e →
      svcCreatePremiumOrderSync env req r σ = (σ, .error e)) ∧
    (∀ env req r σ resp, clientCreateStarOrderAsync env r = .ok resp →
      env.parseTime resp.createdAt = none →
      svcCreateStarOrderAsync env req r σ =
        (σ, .error (InternalServerError "Invalid created_at timestamp"))) ∧
    (∀ env req r σ resp, clientCreateStarOrderSync env r = .ok resp →
      env.parseTime resp.createdAt = none →
      svcCreateStarOrderSync env req r σ =
        (σ, .error (InternalServerError "Invalid created_at timestamp"))) ∧
    (∀ env req r σ resp, clientCreatePremiumOrderAsync env r = .ok resp →
      env.parseTime resp.createdAt = none →
      svcCreatePremiumOrderAsync env req r σ =
        (σ, .error (InternalServerError "Invalid created_at timestamp"))) ∧
    (∀ env req r σ resp, clientCreatePremiumOrderSync env r = .ok resp →
      env.parseTime resp.createdAt = none →
      svcCreatePremiumOrderSync env req r σ =
        (σ, .error (InternalServerError "Invalid created_at timestamp"))) ∧
    (∀ env req r σ resp t s, clientCreateStarOrderSync env r = .ok resp →
      env.parseTime resp.createdAt = some t →
      resp.completedAt = some s → env.parseTime s = none →
      svcCreateStarOrderSync env req r σ =
        (σ, .error (InternalServerError "Invalid completed_at timestamp"))) ∧
    (∀ env req r σ resp t s, clientCreatePremiumOrderSync env r = .ok resp →
      env.parseTime resp.createdAt = some t →
      resp.completedAt = some s → env.parseTime s = none →
      svcCreatePremiumOrderSync env req r σ =
        (σ, .error (InternalServerError "Invalid completed_at timestamp"))) ∧
    (∀ env req r σ resp t, clientCreateStarOrderAsync env r = .ok resp →
      env.parseTime resp.createdAt = some t →
      env.parseUUID resp.orderID = none →
      svcCreateStarOrderAsync env req r σ =
        (σ, .error (InternalServerError "Invalid order_id"))) ∧
    (∀ env req r σ resp t ca, clientCreateStarOrderSync env r = .ok resp →
      env.parseTime resp.createdAt = some t →
      parseCompletedAt env resp.completedAt = .ok ca →
      env.parseUUID resp.orderID = none →
      svcCreateStarOrderSync env req r σ =
        (σ, .error (InternalServerError "Invalid order_id"))) ∧
    (∀ env req r σ resp t, clientCreatePremiumOrderAsync env r = .ok resp →
      env.parseTime resp.createdAt = some t →
      env.parseUUID resp.orderID = none →
      svcCreatePremiumOrderAsync env req r σ =
        (σ, .error (InternalServerError "Invalid order_id"))) ∧
    (∀ env req r σ resp t ca, clientCreatePremiumOrderSync env r = .ok resp →
      env.parseTime resp.createdAt = some t →
      parseCompletedAt env resp.completedAt = .ok ca →
      env.parseUUID resp.orderID = none →
      svcCreatePremiumOrderSync env req r σ =
        (σ, .error (InternalServerError "Invalid order_id"))) := by
  refine ⟨?_, ?_, ?_, ?_, ?_, ?_, ?_, ?_, ?_, ?_, ?_, ?_, ?_, ?_⟩
  · intro env req r σ e hc
    unfold svcCreateStarOrderAsync
    rw [hc]
  · intro env req r σ e hc
    unfold svcCreateStarOrderSync
    rw [hc]
  · intro env req r σ e hc
    unfold svcCreatePremiumOrderAsync
    rw [hc]
  · intro env req r σ e hc
    unfold svcCreatePremiumOrderSync
    rw [hc]
  · intro env req r σ resp hc ht
    unfold svcCreateStarOrderAsync
    rw [hc]
    simp [ht]
  · intro env req r σ resp hc ht
    unfold svcCreateStarOrderSync
    rw [hc]
    simp [ht]
  · intro env req r σ resp hc ht
    unfold svcCreatePremiumOrderAsync
    rw [hc]
    simp [ht]
  · intro env req r σ resp hc ht
    unfold svcCreatePremiumOrderSync
    rw [hc]
    simp [ht]
  · intro env req r σ resp t s hc ht hs hps
    unfold svcCreateStarOrderSync
    rw [hc]
    simp [ht, parseCompletedAt, hs, hps]
  · intro env req r σ resp t s hc ht hs hps
    unfold svcCreatePremiumOrderSync
    rw [hc]
    simp [ht, parseCompletedAt, hs, hps]
  · intro env req r σ resp t hc ht hu
    unfold svcCreateStarOrderAsync
    rw [hc]
    simp [ht, hu]
  · intro env req r σ resp t ca hc ht hca hu
    unfold svcCreateStarOrderSync
    rw [hc]
    simp [ht, hca, hu]
  · intro env req r σ resp t hc ht hu
    unfold svcCreatePremiumOrderAsync
    rw [hc]
    simp [ht, hu]
  · intro env req r σ resp t ca hc ht hca hu
    unfold svcCreatePremiumOrderSync
    rw [hc]
    simp [ht, hca, hu]

/-- Witness for C7: a concrete propagated client error (the 404
classification) and a concrete created_at parse failure. -/
theorem c7_first_error_propagation_witness :
    svcCreateStarOrderAsync envW reqW (.error (NotFoundError "Resource not found")) [] =
      ([], .error (NotFoundError "Resource not found")) ∧
    svcCreateStarOrderAsync envW reqW (.ok ⟨202, "starbad"⟩) [] =
      ([], .error (InternalServerError "Invalid created_at timestamp")) :=
  ⟨c7_first_error_propagation.1 envW reqW (.error (NotFoundError "Resource not found")) []
     (NotFoundError "Resource not found") rfl,
   c7_first_error_propagation.2.2.2.2.1 envW reqW (.ok ⟨202, "starbad"⟩) [] respBadW
     (by rfl) (by rfl)⟩

/-- C10: both Order Store operations always return nil for every input
(their bodies are entirely commented out in this source), so the
persistence-failure branches of the orchestrator ("Failed to save
order") and of the webhook handler ("Failed to update order") are
unreachable: once the success path reaches the store, the operation
succeeds; and a webhook update for an order id that was never created
(the store state `σ` is arbitrary and unconstrained) still succeeds
with the acknowledgement. -/
theorem c10_store_stub_never_fails :
    (∀ σ o, repoCreateOrder σ o = (σ, none)) ∧
    (∀ σ c, repoUpdateOrderStatus σ c = (σ, none)) ∧
    (∀ env req r resp t u σ, clientCreateStarOrderAsync env r = .ok resp →
      env.parseTime resp.createdAt = some t →
      env.parseUUID resp.orderID = some u →
      (svcCreateStarOrderAsync env req r σ).2 = .ok (mkStarAsyncOrder req resp t u) ∧
      (svcCreateStarOrderAsync env req r σ).2 ≠
        .error (InternalServerError "Failed to save order")) ∧
    (∀ env secret inp σ payload orderID status,
      (secret = "" ∨ inp.signature = env.hmacSHA256Hex secret inp.body) →
      env.decodeWebhook inp.body = some payload →
      lookupString payload.order "id" = some orderID →
      lookupString payload.order "status" = some status →
      (handleWebhook env secret inp σ).2.2 = .ok () ∧
      (handleWebhook env secret inp σ).2.2 ≠
        .error (InternalServerError "Failed to update order")) := by
  refine ⟨fun σ o => rfl, fun σ c => rfl, ?_, ?_⟩
  · intro env req r resp t u σ hc ht hu
    have h := svcStarAsync_ok env req r resp t u σ hc ht hu
    rw [h]
    exact ⟨rfl, fun hcontra => Except.noConfusion hcontra⟩
  · intro env secret inp σ payload orderID status hpass hdec hid hst
    have h := (handleWebhook_pass env secret inp σ hpass).trans
      (handleWebhookBody_ok env inp σ payload orderID status hdec hid hst)
    rw [h]
    exact ⟨rfl, fun hcontra => Except.noConfusion hcontra⟩

/-- Witness for C10: a concrete successful creation and a concrete
webhook acknowledgement over an empty store (the order id "0f2a" was
never created). -/
theorem c10_store_stub_never_fails_witness :
    ((svcCreateStarOrderAsync envW reqW (.ok ⟨202, "star"⟩) []).2 =
        .ok (mkStarAsyncOrder reqW respW ⟨0⟩ ⟨1⟩) ∧
      (svcCreateStarOrderAsync envW reqW (.ok ⟨202, "star"⟩) []).2 ≠
        .error (InternalServerError "Failed to save order")) ∧
    ((handleWebhook envW "s" ⟨"sig", "wh"⟩ []).2.2 = .ok () ∧
      (handleWebhook envW "s" ⟨"sig", "wh"⟩ []).2.2 ≠
        .error (InternalServerError "Failed to update order")) :=
  ⟨c10_store_stub_never_fails.2.2.1 envW reqW (.ok ⟨202, "star"⟩) respW ⟨0⟩ ⟨1⟩ []
     (by rfl) (by rfl) (by rfl),
   c10_store_stub_never_fails.2.2.2 envW "s" ⟨"sig", "wh"⟩ [] payloadW "0f2a" "completed"
     (Or.inr (by decide)) (by rfl) (by rfl) (by rfl)⟩

end IStar
